import Mathlib

/-!
Shallow embedding of `src/ESP32Cam_TFTDisplay.ino` (ESP32-CAM live view on a
TFT display with still capture to SD card).

Conventions of the embedding:
* Machine integers are `Nat` with explicit `% 2^16` / `% 2^32` where the C
  code stores into `uint16_t` / `unsigned long` (32-bit on ESP32).
* The C `float currentFPS` is modelled as an exact rational `ℚ`; the claims
  about it concern the formula, not rounding.
* Calls into drivers (`esp_camera_fb_get`, `SD.open`, `esp_camera_sensor_get`)
  are oracles supplied through environment records; their results select the
  same control paths as the source.
* Display/serial output of `capturePhoto` is recorded as a list of `UIEvent`s;
  the function draws exactly three distinct banners (lines 63-67, 73-78,
  106-117 of the source) and writes nothing to the serial log.
-/

namespace ESPCam

/-- Frame-size register values used by the sketch: `FRAMESIZE_QVGA` (live view,
lines 91/125/222/238) and `FRAMESIZE_VGA` (still capture, line 83). -/
inductive FrameSize
  | QVGA
  | VGA
deriving DecidableEq, Repr

/-- A sensor profile: the pair (framesize, JPEG quality) that the sketch
programs through `s->set_framesize` / `s->set_quality`. -/
structure SensorProfile where
  framesize : FrameSize
  quality : Nat
deriving DecidableEq, Repr

/-- The live-view profile configured at startup: `setup` lines 238-239 set
`FRAMESIZE_QVGA` and quality `6` (the last sensor writes before `loop` runs). -/
def liveViewStartupProfile : SensorProfile := ⟨FrameSize.QVGA, 6⟩

/-- The still profile: `capturePhoto` lines 83-84 set `FRAMESIZE_VGA`,
quality `4`. -/
def stillProfile : SensorProfile := ⟨FrameSize.VGA, 4⟩

/-- The profile `capturePhoto` restores on its exit paths: lines 91-92 and
125-126 set `FRAMESIZE_QVGA`, quality `8` (not the startup quality 6). -/
def liveViewRestoredProfile : SensorProfile := ⟨FrameSize.QVGA, 8⟩

/-- The global mutable state of the sketch (lines 23-48) that the embedded
functions read or write: `bufferReady`, `frameCount`, `fpsTimer`,
`currentFPS`, `captureRequested`, `lastButtonPress`, `photoCount`,
`sdCardAvailable`, plus the camera sensor's current profile. -/
structure Globals where
  bufferReady : Bool
  frameCount : Nat
  fpsTimer : Nat
  currentFPS : ℚ
  captureRequested : Bool
  lastButtonPress : Nat
  photoCount : Nat
  sdCardAvailable : Bool
  profile : SensorProfile
deriving DecidableEq, Repr

/-- The three banners `capturePhoto` can draw on the TFT: the "NO SD CARD
DETECTED" error box (lines 63-67), the "CAPTURING..." box (lines 73-78), and
the "PHOTO SAVED! / Image #n" box (lines 106-117). -/
inductive UIEvent
  | noSDBanner
  | capturingBanner
  | photoSavedBanner (n : Nat)
deriving DecidableEq, Repr

/-- `UIEvent.noSDBanner` is the only error banner `capturePhoto` draws; the
function contains no serial logging at all. -/
def isErrorEvent : UIEvent → Bool
  | UIEvent.noSDBanner => true
  | _ => false

/-- Driver responses consumed by one run of `capturePhoto`:
whether `esp_camera_sensor_get()` returns a non-null handle (line 81),
whether `esp_camera_fb_get()` returns a frame (line 88), and whether
`SD.open(..., FILE_WRITE)` yields a valid file (line 100). -/
structure CapEnv where
  sensorPresent : Bool
  frameAvailable : Bool
  fileOpenOk : Bool
deriving DecidableEq, Repr

/-- Observable trace of one run of `capturePhoto`: banners drawn, number of
calls to `esp_camera_fb_get`, number of non-null frames obtained, and number
of `esp_camera_fb_return` calls. -/
structure CapTrace where
  ui : List UIEvent
  fbGetCalls : Nat
  fbAcquired : Nat
  fbReturned : Nat
deriving DecidableEq, Repr

/-- Return value, final globals and trace of one run of `capturePhoto`. -/
structure CapResult where
  ret : Bool
  g : Globals
  t : CapTrace
deriving DecidableEq, Repr

/-- `capturePhoto` (source lines 60-130), path by path:
* lines 61-70: no SD card → error banner, `return false` (nothing else runs);
* lines 72-78: "CAPTURING..." banner;
* lines 81-86: if the sensor handle is non-null, switch to the still profile
  (VGA, quality 4);
* lines 88-95: `esp_camera_fb_get()`; on null, restore (QVGA, quality 8) when
  the handle is non-null and `return false`;
* lines 97-98: `photoCount++`;
* lines 100-120: open the file; only on success write it and draw the
  success banner — a failed open is silently skipped;
* line 122: `esp_camera_fb_return(fb)`;
* lines 124-127: restore (QVGA, quality 8) when the handle is non-null;
* line 129: `return true`. -/
def capturePhoto (env : CapEnv) (g : Globals) : CapResult :=
  if !g.sdCardAvailable then
    ⟨false, g, ⟨[UIEvent.noSDBanner], 0, 0, 0⟩⟩
  else
    let g1 := if env.sensorPresent then { g with profile := stillProfile } else g
    if !env.frameAvailable then
      let g2 := if env.sensorPresent then { g1 with profile := liveViewRestoredProfile } else g1
      ⟨false, g2, ⟨[UIEvent.capturingBanner], 1, 0, 0⟩⟩
    else
      let g2 := { g1 with photoCount := g1.photoCount + 1 }
      let ui := if env.fileOpenOk then
          [UIEvent.capturingBanner, UIEvent.photoSavedBanner g2.photoCount]
        else
          [UIEvent.capturingBanner]
      let g3 := if env.sensorPresent then { g2 with profile := liveViewRestoredProfile } else g2
      ⟨true, g3, ⟨ui, 1, 1, 1⟩⟩

/-- 2^32: `unsigned long` on the ESP32 is 32 bits; `millis()` values and their
differences wrap modulo this. -/
def U32 : Nat := 4294967296

/-- `debounceDelay` (line 46). -/
def debounceDelay : Nat := 200

/-- The guard of the interrupt handler (line 53):
`currentTime - lastButtonPress > debounceDelay` computed in `unsigned long`
arithmetic, i.e. the difference is taken modulo 2^32. -/
def debounceOk (currentTime lastPress : Nat) : Bool :=
  debounceDelay < (currentTime + U32 - lastPress) % U32

/-- The interrupt handler `buttonPressed` (lines 51-57): when the debounce
guard passes it sets `captureRequested` and records `lastButtonPress`;
otherwise it does nothing. It references no other global. -/
def buttonPressed (currentTime : Nat) (g : Globals) : Globals :=
  if debounceOk currentTime g.lastButtonPress then
    { g with captureRequested := true, lastButtonPress := currentTime }
  else g

/-- Fold of `buttonPressed` over a sequence of press times, collecting the
times at which the handler accepted the press (set the flag and timestamp). -/
def runPresses (g : Globals) : List Nat → List Nat
  | [] => []
  | t :: ts =>
    if debounceOk t g.lastButtonPress then t :: runPresses (buttonPressed t g) ts
    else runPresses (buttonPressed t g) ts

/-- 2^16: `bufIndex` and `mcuPixels` in `loop` are `uint16_t` (lines 324, 329);
assignments to them wrap modulo this. -/
def U16 : Nat := 65536

/-- Capacity of `displayBuffer` in pixels: allocated as `320 * 240` 16-bit
pixels (line 269); the guard at line 332 compares against `320 * 240`. -/
def bufCapacity : Nat := 320 * 240

/-- One decoded MCU as exposed by `JPEGDecoder` after `JpegDec.read()`:
grid coordinates `MCUx`/`MCUy` and dimensions `MCUWidth`/`MCUHeight`. -/
structure MCUTile where
  mcuX : Nat
  mcuY : Nat
  mcuW : Nat
  mcuH : Nat
deriving DecidableEq, Repr

/-- One performed `memcpy` into `displayBuffer` (line 333), recorded as the
destination pixel offset and the number of pixels copied. -/
structure BufWrite where
  offset : Nat
  len : Nat
deriving DecidableEq, Repr

/-- The buffered drain loop (lines 327-336): for each MCU, `mcuPixels` is
`MCUWidth * MCUHeight` truncated to `uint16_t`; the guard
`bufIndex + mcuPixels <= 320*240` is evaluated after integer promotion to
`int` (no wrap); on success the whole tile is copied at `bufIndex` and
`bufIndex += mcuPixels` wraps modulo 2^16; on failure nothing is written and
`bufIndex` is unchanged. Returns the list of performed writes. -/
def drainTiles (bufIndex : Nat) : List MCUTile → List BufWrite
  | [] => []
  | t :: ts =>
    let mcuPixels := (t.mcuW * t.mcuH) % U16
    if bufIndex + mcuPixels ≤ bufCapacity then
      ⟨bufIndex, mcuPixels⟩ :: drainTiles ((bufIndex + mcuPixels) % U16) ts
    else
      drainTiles bufIndex ts

/-- Modelled from the spec: "copies its pixels into PixelBuffer at the offset
implied by accumulated tile pixel counts" — each tile is written at the exact
(unwrapped) sum of the pixel counts of all previous tiles. Used only to
compare the code's `drainTiles` against the specified placement. -/
def specImpliedWrites (acc : Nat) : List MCUTile → List BufWrite
  | [] => []
  | t :: ts => ⟨acc, t.mcuW * t.mcuH⟩ :: specImpliedWrites (acc + t.mcuW * t.mcuH) ts

/-- A full 320×240 QVGA frame as produced by the JPEG decoder: 300 MCUs of
16×16 pixels, in raster order (20 MCU columns × 15 MCU rows). -/
def fullQVGATiles : List MCUTile :=
  (List.range 300).map (fun i => ⟨i % 20, i / 20, 16, 16⟩)

/-- One `tft.pushImage(x, y, w, h, data)` call (lines 339 and 344-350). -/
structure PushRect where
  x : Nat
  y : Nat
  w : Nat
  h : Nat
deriving DecidableEq, Repr

/-- Result of a successful `JpegDec.decodeArray`: the reported `JpegDec.width`
and `JpegDec.height` and the MCU sequence delivered by `JpegDec.read()`. -/
structure DecodedFrame where
  width : Nat
  height : Nat
  tiles : List MCUTile
deriving DecidableEq, Repr

/-- The FPS block of `loop` (lines 354-399): `frameCount++`; when the counter
has reached 30, compute `elapsed = millis() - fpsTimer` (32-bit unsigned) and
`currentFPS = frameCount * 1000.0 / elapsed` (modelled exactly in `ℚ`), then
reset `frameCount` to 0 and `fpsTimer` to the current time. Returns the new
globals and the emitted sample, if any. -/
def fpsTick (now : Nat) (g : Globals) : Globals × Option ℚ :=
  let fc := g.frameCount + 1
  if 30 ≤ fc then
    let elapsed := (now + U32 - g.fpsTimer) % U32
    let fps : ℚ := (fc * 1000 : ℚ) / (elapsed : ℚ)
    ({ g with frameCount := 0, fpsTimer := now, currentFPS := fps }, some fps)
  else
    ({ g with frameCount := fc }, none)

/-- Driver responses consumed by one iteration of `loop`: the environment for
a possible `capturePhoto` call, whether `esp_camera_fb_get()` returns a frame
(line 309), the decode result (line 313), the `millis()` value read in the
FPS block, and the display dimensions `tft.width()` / `tft.height()`. -/
structure LoopEnv where
  capEnv : CapEnv
  fb : Bool
  decoded : Option DecodedFrame
  now : Nat
  W : Nat
  H : Nat
deriving DecidableEq, Repr

/-- Observable trace of one iteration of `loop`: the `capturePhoto`
invocation (if any) with its return value and trace, the number of non-null
live-view frames obtained from `esp_camera_fb_get`, the number of
`esp_camera_fb_return` calls for that frame, the `tft.pushImage` calls, the
`memcpy`s into `displayBuffer`, and the FPS sample emitted. -/
structure LoopTrace where
  capture : Option (Bool × CapTrace)
  fbAcquired : Nat
  fbReturned : Nat
  pushes : List PushRect
  writes : List BufWrite
  fpsEmitted : Option ℚ
deriving DecidableEq, Repr

/-- The capture handshake at the top of `loop` (lines 303-306): if
`captureRequested` is set, clear it and run `capturePhoto`. -/
def loopCapture (e : CapEnv) (g : Globals) : Globals × Option (Bool × CapTrace) :=
  if g.captureRequested then
    let r := capturePhoto e { g with captureRequested := false }
    (r.g, some (r.ret, r.t))
  else (g, none)

/-- The rendering section of `loop` (lines 317-352): the centering origin is
`x = (tft.width() - w) / 2`, `y = (tft.height() - h) / 2`; on the buffered
path the MCUs are drained into `displayBuffer` and one `pushImage` covers the
centered rectangle (line 339); on the fallback path each MCU is pushed at
`(MCUx*MCUWidth + x, MCUy*MCUHeight + y)` (lines 344-350). -/
def loopRender (W H : Nat) (buffered : Bool) (d : DecodedFrame) :
    List PushRect × List BufWrite :=
  let x := (W - d.width) / 2
  let y := (H - d.height) / 2
  if buffered then
    ([⟨x, y, d.width, d.height⟩], drainTiles 0 d.tiles)
  else
    (d.tiles.map (fun t => ⟨t.mcuX * t.mcuW + x, t.mcuY * t.mcuH + y, t.mcuW, t.mcuH⟩), [])

/-- One iteration of `loop` (lines 301-404): capture handshake; acquire a
frame (early return on null, line 310); on decode success render and run the
FPS block; in all cases with a non-null frame, `esp_camera_fb_return(fb)`
runs once at line 403 (also on the decode-failure path). -/
def loop (env : LoopEnv) (g : Globals) : Globals × LoopTrace :=
  let s := loopCapture env.capEnv g
  if env.fb then
    match env.decoded with
    | some d =>
      let pw := loopRender env.W env.H s.1.bufferReady d
      let f := fpsTick env.now s.1
      (f.1, ⟨s.2, 1, 1, pw.1, pw.2, f.2⟩)
    | none => (s.1, ⟨s.2, 1, 1, [], [], none⟩)
  else (s.1, ⟨s.2, 0, 0, [], [], none⟩)

/-- Concrete startup globals: buffer allocated, SD card present, sensor left
in the startup live-view profile (QVGA, quality 6). -/
def gLive : Globals :=
  ⟨true, 0, 0, 0, false, 0, 0, true, liveViewStartupProfile⟩

/-- Concrete globals with no SD card mounted. -/
def gNoSD : Globals :=
  ⟨true, 0, 0, 0, false, 0, 0, false, liveViewStartupProfile⟩

/-- Concrete globals one frame before the FPS window closes. -/
def gFps : Globals :=
  ⟨true, 29, 0, 0, false, 0, 0, true, liveViewStartupProfile⟩

/-- A decoded full-size QVGA frame. -/
def dQVGA : DecodedFrame := ⟨320, 240, fullQVGATiles⟩

/-- Concrete loop environment: capture drivers all succeed, a live frame is
acquired and decodes to a full QVGA frame, on a 320×240 display. -/
def envLive : LoopEnv := ⟨⟨true, true, true⟩, true, some dQVGA, 1000, 320, 240⟩

lemma debounceOk_no_wrap (t lbp : Nat) (h1 : lbp ≤ t) (h2 : t < U32) :
    debounceOk t lbp = true ↔ debounceDelay < t - lbp := by
  unfold debounceOk
  have e : t + U32 - lbp = (t - lbp) + U32 := by omega
  rw [e, Nat.add_mod_right, Nat.mod_eq_of_lt (by omega : t - lbp < U32)]
  simp

lemma runPresses_gap : ∀ (ts : List Nat) (g : Globals),
    ts.Pairwise (· ≤ ·) → (∀ e ∈ ts, g.lastButtonPress ≤ e ∧ e < U32) →
    g.lastButtonPress < U32 →
    (∀ e ∈ runPresses g ts, g.lastButtonPress + debounceDelay < e ∧ e < U32)
    ∧ (runPresses g ts).Pairwise (fun a b => a + debounceDelay < b) := by
  intro ts
  induction ts with
  | nil => intro g _ _ _; exact ⟨by simp [runPresses], by simp [runPresses]⟩
  | cons t ts ih =>
    intro g hp hb hlbp
    rcases List.pairwise_cons.mp hp with ⟨hhead, htail⟩
    obtain ⟨hle, htU⟩ := hb t (by simp)
    by_cases hd : debounceOk t g.lastButtonPress
    · have hgt : g.lastButtonPress + debounceDelay < t := by
        have := (debounceOk_no_wrap t g.lastButtonPress hle htU).mp hd
        omega
      have hbp : buttonPressed t g =
          { g with captureRequested := true, lastButtonPress := t } := by
        simp [buttonPressed, hd]
      have ih' := ih { g with captureRequested := true, lastButtonPress := t } htail
        (fun e he => ⟨hhead e he, (hb e (by simp [he])).2⟩) htU
      have ihall : ∀ e ∈ runPresses { g with captureRequested := true, lastButtonPress := t } ts,
          t + debounceDelay < e ∧ e < U32 := fun e he => ih'.1 e he
      have hrw : runPresses g (t :: ts) =
          t :: runPresses { g with captureRequested := true, lastButtonPress := t } ts := by
        simp [runPresses, hd, hbp]
      rw [hrw]
      constructor
      · intro e he
        rcases List.mem_cons.mp he with rfl | he'
        · exact ⟨hgt, htU⟩
        · have := ihall e he'
          exact ⟨by omega, this.2⟩
      · exact List.pairwise_cons.mpr ⟨fun e he' => (ihall e he').1, ih'.2⟩
    · have hbp : buttonPressed t g = g := by simp [buttonPressed, hd]
      have hrw : runPresses g (t :: ts) = runPresses (buttonPressed t g) ts := by
        simp [runPresses, hd]
      rw [hrw, hbp]
      exact ih g htail (fun e he => hb e (by simp [he])) hlbp

lemma pairwise_gap_countP (l : List Nat) (T : Nat)
    (hp : l.Pairwise (fun a b => a + debounceDelay < b)) :
    l.countP (fun t => decide (T ≤ t) && decide (t ≤ T + debounceDelay)) ≤ 1 := by
  induction l with
  | nil => simp
  | cons a l ih =>
    rcases List.pairwise_cons.mp hp with ⟨ha, hl⟩
    by_cases hPa : T ≤ a ∧ a ≤ T + debounceDelay
    · have hz : l.countP (fun t => decide (T ≤ t) && decide (t ≤ T + debounceDelay)) = 0 := by
        refine List.countP_eq_zero.mpr (fun e he => ?_)
        have := ha e he
        simp only [Bool.and_eq_true, decide_eq_true_eq, not_and]
        intro _
        omega
      rw [List.countP_cons_of_pos _ _ (by simp [hPa.1, hPa.2]), hz]
    · rw [List.countP_cons_of_neg]
      · exact ih hl
      · simp only [Bool.and_eq_true, decide_eq_true_eq]
        tauto

lemma capturePhoto_preserves (e : CapEnv) (g : Globals) :
    (capturePhoto e g).g.bufferReady = g.bufferReady
    ∧ (capturePhoto e g).g.frameCount = g.frameCount
    ∧ (capturePhoto e g).g.fpsTimer = g.fpsTimer
    ∧ (capturePhoto e g).g.currentFPS = g.currentFPS
    ∧ (capturePhoto e g).g.captureRequested = g.captureRequested
    ∧ (capturePhoto e g).g.lastButtonPress = g.lastButtonPress
    ∧ (capturePhoto e g).g.sdCardAvailable = g.sdCardAvailable := by
  unfold capturePhoto
  split_ifs <;> simp

lemma capturePhoto_framesize (e : CapEnv) (g : Globals)
    (h : g.profile.framesize = FrameSize.QVGA) :
    (capturePhoto e g).g.profile.framesize = FrameSize.QVGA := by
  unfold capturePhoto
  split_ifs <;> simp [liveViewRestoredProfile, stillProfile, h]

lemma fpsTick_preserves (now : Nat) (g : Globals) :
    (fpsTick now g).1.profile = g.profile
    ∧ (fpsTick now g).1.photoCount = g.photoCount
    ∧ (fpsTick now g).1.bufferReady = g.bufferReady := by
  simp only [fpsTick]
  split_ifs <;> simp

lemma loopCapture_preserves (e : CapEnv) (g : Globals) :
    (loopCapture e g).1.bufferReady = g.bufferReady
    ∧ (loopCapture e g).1.frameCount = g.frameCount
    ∧ (loopCapture e g).1.fpsTimer = g.fpsTimer
    ∧ (loopCapture e g).1.currentFPS = g.currentFPS := by
  unfold loopCapture
  by_cases hc : g.captureRequested
  · obtain ⟨h1, h2, h3, h4, _⟩ := capturePhoto_preserves e { g with captureRequested := false }
    simp [hc, h1, h2, h3, h4]
  · simp [hc]

set_option maxRecDepth 8000 in
/-- C2. The buffered assembly path is claimed to place each accepted tile at
the offset equal to the accumulated pixel count of all previously accepted
tiles, so that a full 320×240 frame lands with every pixel at its implied
offset. The code stores the running offset in a `uint16_t` (`bufIndex`,
line 324), which wraps at 65536 < 76800: on a full QVGA frame (300 MCUs of
16×16 pixels, all accepted), the 257th tile — whose accumulated pixel count
is 256·256 = 65536 — is written at offset 0, overwriting the top of the
frame, while the spec-implied offset is 65536. -/
theorem drainTiles_wrap_bug :
    (drainTiles 0 fullQVGATiles).length = 300
    ∧ (drainTiles 0 fullQVGATiles)[256]? = some ⟨0, 256⟩
    ∧ (specImpliedWrites 0 fullQVGATiles)[256]? = some ⟨65536, 256⟩ := by
  refine ⟨rfl, rfl, rfl⟩

/-- C3. Buffer safety of the buffered drain loop: every `memcpy` into
`displayBuffer` stays within its capacity of 320·240 pixels (the write at
`offset` of `len` pixels satisfies `offset + len ≤ 320*240`, so no index at
or beyond the capacity is touched), and a tile whose pixel count added to the
running write offset would exceed the capacity is dropped entirely — it
produces no write and leaves the offset and the remaining writes unchanged. -/
theorem drainTiles_buffer_safety (bufIndex : Nat) (tiles : List MCUTile) :
    ((drainTiles bufIndex tiles).all (fun w => w.offset + w.len ≤ bufCapacity) = true)
    ∧ (∀ t : MCUTile, bufCapacity < bufIndex + (t.mcuW * t.mcuH) % U16 →
        drainTiles bufIndex (t :: tiles) = drainTiles bufIndex tiles) := by
  constructor
  · induction tiles generalizing bufIndex with
    | nil => simp [drainTiles]
    | cons t ts ih =>
      by_cases h : bufIndex + (t.mcuW * t.mcuH) % U16 ≤ bufCapacity
      · simp only [drainTiles, if_pos h, List.all_cons, Bool.and_eq_true]
        exact ⟨by simp [h], ih _⟩
      · simp only [drainTiles, h, if_false]
        exact ih _
  · intro t ht
    simp only [drainTiles, if_neg (by omega : ¬bufIndex + (t.mcuW * t.mcuH) % U16 ≤ bufCapacity)]

/-- C3 witness: on a full QVGA frame every performed write is within
capacity, and a 16×16 tile arriving when the running offset is 76700 (for
which 76700 + 256 > 76800) is dropped entirely. -/
theorem drainTiles_buffer_safety_witness :
    ((drainTiles 0 fullQVGATiles).all (fun w => w.offset + w.len ≤ bufCapacity) = true)
    ∧ drainTiles 76700 [⟨0, 0, 16, 16⟩] = drainTiles 76700 [] := by
  refine ⟨(drainTiles_buffer_safety 0 fullQVGATiles).1, ?_⟩
  exact (drainTiles_buffer_safety 76700 []).2 ⟨0, 0, 16, 16⟩ (by decide)

/-- C10. `capturePhoto` returns `true` exactly when the SD card is available
and frame acquisition succeeds — in particular it still returns `true` when
opening the output file fails, and `false` exactly on the storage-unavailable
and acquisition-failure paths. -/
theorem capturePhoto_return_value (e : CapEnv) (g : Globals) :
    (capturePhoto e g).ret = (g.sdCardAvailable && e.frameAvailable) := by
  unfold capturePhoto
  split_ifs <;> simp_all

/-- C8. When storage is unavailable, `capturePhoto` renders the error banner
and aborts: it returns `false`, leaves the globals (in particular the sensor
profile and `photoCount`) unchanged, never calls `esp_camera_fb_get`, and
acquires and releases nothing. -/
theorem capturePhoto_no_sd_abort (e : CapEnv) (g : Globals)
    (h : g.sdCardAvailable = false) :
    capturePhoto e g = ⟨false, g, ⟨[UIEvent.noSDBanner], 0, 0, 0⟩⟩ := by
  unfold capturePhoto
  simp [h]

/-- C8 witness: concrete run with all drivers healthy but no SD card. -/
theorem capturePhoto_no_sd_abort_witness :
    capturePhoto ⟨true, true, true⟩ gNoSD = ⟨false, gNoSD, ⟨[UIEvent.noSDBanner], 0, 0, 0⟩⟩ :=
  capturePhoto_no_sd_abort ⟨true, true, true⟩ gNoSD rfl

/-- C4. Frame-buffer return discipline: one `loop` iteration returns the
live-view frame exactly as many times as it acquired it (once when
`esp_camera_fb_get` yields a frame — including on the decode-failure path —
and zero times otherwise, the release happening at the end of the same
iteration, before the next acquisition), and `capturePhoto` returns its
still-capture frame exactly as many times as it acquired one (once whenever
storage was available and acquisition succeeded, zero otherwise). -/
theorem frame_release_exactly_once (env : LoopEnv) (g : Globals)
    (e : CapEnv) (g' : Globals) :
    ((loop env g).2.fbReturned = (loop env g).2.fbAcquired)
    ∧ ((loop env g).2.fbAcquired = if env.fb then 1 else 0)
    ∧ ((capturePhoto e g').t.fbReturned = (capturePhoto e g').t.fbAcquired)
    ∧ ((capturePhoto e g').t.fbAcquired =
        if g'.sdCardAvailable && e.frameAvailable then 1 else 0) := by
  have hloop : ((loop env g).2.fbReturned = (loop env g).2.fbAcquired)
      ∧ ((loop env g).2.fbAcquired = if env.fb then 1 else 0) := by
    unfold loop
    cases hfb : env.fb
    · simp
    · cases hdec : env.decoded <;> simp [hdec]
  have hcap : ((capturePhoto e g').t.fbReturned = (capturePhoto e g').t.fbAcquired)
      ∧ ((capturePhoto e g').t.fbAcquired =
          if g'.sdCardAvailable && e.frameAvailable then 1 else 0) := by
    unfold capturePhoto
    split_ifs <;> simp_all
  exact ⟨hloop.1, hloop.2, hcap.1, hcap.2⟩

/-- C1 counterexample. Starting from the startup live-view profile
(QVGA, quality 6, lines 238-239) with storage available and all drivers
healthy, a successful `capturePhoto` leaves the sensor in (QVGA, quality 8)
(lines 125-126) — not the live-view profile configured at startup, whose
quality was 6. -/
theorem capturePhoto_startup_profile_cex :
    gLive.profile = liveViewStartupProfile
    ∧ (capturePhoto ⟨true, true, true⟩ gLive).g.profile ≠ liveViewStartupProfile := by
  refine ⟨rfl, ?_⟩
  decide

/-- C1 amended. On every exit path of `capturePhoto` (storage unavailable,
acquisition failure, write failure, success — and also when the sensor handle
is null), a sensor that entered with the live-view framesize (QVGA) still has
the live-view framesize at the next live-view acquisition, and on the paths
that actually switch the sensor (storage available, handle non-null) the
restored profile is exactly (QVGA, quality 8) — the live-view framesize but
quality 8, not the startup quality 6. The same invariant holds across a full
`loop` iteration, whose next `esp_camera_fb_get` observes that profile. -/
theorem capturePhoto_profile_restoration (e : CapEnv) (env : LoopEnv) (g g' : Globals)
    (h : g.profile.framesize = FrameSize.QVGA)
    (h' : g'.profile.framesize = FrameSize.QVGA) :
    ((capturePhoto e g).g.profile.framesize = FrameSize.QVGA)
    ∧ (g.sdCardAvailable = true → e.sensorPresent = true →
        (capturePhoto e g).g.profile = liveViewRestoredProfile)
    ∧ ((loop env g').1.profile.framesize = FrameSize.QVGA) := by
  refine ⟨capturePhoto_framesize e g h, ?_, ?_⟩
  · intro hsd hs
    unfold capturePhoto
    rw [hsd, hs]
    simp only [Bool.not_true, Bool.false_eq_true, if_false, if_true]
    split_ifs <;> simp
  · have hs1 : (loopCapture env.capEnv g').1.profile.framesize = FrameSize.QVGA := by
      unfold loopCapture
      by_cases hc : g'.captureRequested
      · simp only [hc, if_true]
        exact capturePhoto_framesize _ _ h'
      · simp [hc, h']
    unfold loop
    cases hfb : env.fb
    · simpa using hs1
    · cases hdec : env.decoded with
      | none => simpa [hdec] using hs1
      | some d =>
        simp only [hdec, if_true]
        rw [(fpsTick_preserves env.now (loopCapture env.capEnv g').1).1]
        exact hs1

/-- C1 witness: a successful capture from the startup state restores
(QVGA, quality 8), and a full loop iteration keeps the QVGA framesize. -/
theorem capturePhoto_profile_restoration_witness :
    (capturePhoto ⟨true, true, true⟩ gLive).g.profile = liveViewRestoredProfile
    ∧ (loop envLive gLive).1.profile.framesize = FrameSize.QVGA := by
  have h := capturePhoto_profile_restoration ⟨true, true, true⟩ envLive gLive gLive rfl rfl
  exact ⟨h.2.1 rfl rfl, h.2.2⟩

/-- C5. The interrupt handler `buttonPressed`: it sets the pending flag and
records the new timestamp exactly when the debounce guard passes and does
nothing otherwise; it touches no global other than `captureRequested` and
`lastButtonPress`; within one 32-bit `millis` epoch the guard means "more
than 200 ms since the last accepted press"; and consequently, over any
chronological press sequence, at most one press is accepted within any
window [T, T + 200 ms]. -/
theorem buttonPressed_debounce :
    (∀ (t : Nat) (g : Globals),
      (debounceOk t g.lastButtonPress = true →
        buttonPressed t g = { g with captureRequested := true, lastButtonPress := t })
      ∧ (debounceOk t g.lastButtonPress = false → buttonPressed t g = g)
      ∧ ((buttonPressed t g).photoCount = g.photoCount
         ∧ (buttonPressed t g).frameCount = g.frameCount
         ∧ (buttonPressed t g).fpsTimer = g.fpsTimer
         ∧ (buttonPressed t g).currentFPS = g.currentFPS
         ∧ (buttonPressed t g).profile = g.profile
         ∧ (buttonPressed t g).sdCardAvailable = g.sdCardAvailable
         ∧ (buttonPressed t g).bufferReady = g.bufferReady)
      ∧ (g.lastButtonPress ≤ t → t < U32 →
          (debounceOk t g.lastButtonPress = true ↔
            debounceDelay < t - g.lastButtonPress)))
    ∧ (∀ (g : Globals) (ts : List Nat) (T : Nat),
        ts.Pairwise (· ≤ ·) →
        (∀ e ∈ ts, g.lastButtonPress ≤ e ∧ e < U32) →
        g.lastButtonPress < U32 →
        (runPresses g ts).countP
          (fun t => decide (T ≤ t) && decide (t ≤ T + debounceDelay)) ≤ 1) := by
  constructor
  · intro t g
    refine ⟨fun hd => by simp [buttonPressed, hd],
      fun hd => by simp [buttonPressed, hd], ?_, ?_⟩
    · unfold buttonPressed
      split_ifs <;> simp
    · intro h1 h2
      exact debounceOk_no_wrap t g.lastButtonPress h1 h2
  · intro g ts T hp hb hlbp
    exact pairwise_gap_countP _ T (runPresses_gap ts g hp hb hlbp).2

/-- C5 witness: from the startup state, the presses at 50 ms, 300 ms, 400 ms
and 650 ms lead to at most one accepted request in the window
[250 ms, 450 ms]. -/
theorem buttonPressed_debounce_witness :
    (runPresses gLive [50, 300, 400, 650]).countP
      (fun t => decide (250 ≤ t) && decide (t ≤ 250 + debounceDelay)) ≤ 1 :=
  buttonPressed_debounce.2 gLive [50, 300, 400, 650] 250
    (by decide) (by decide) (by decide)

/-- C6. The FPS estimator: each successfully decoded and displayed frame
increments the counter by one; while the counter has not yet reached 30 no
sample is emitted and the window start is untouched; exactly when the counter
reaches 30 the estimator emits `fps = (30 * 1000) / elapsed_ms` over the
interval since the window start and resets both the counter to 0 and the
window-start timestamp to the current time, so windows are strictly
sequential; the counter invariant `< 30` is preserved. Within `loop`, the
tick runs exactly on the decode-success path. -/
theorem fpsTick_window (now : Nat) (g : Globals) (h : g.frameCount < 30) :
    (g.frameCount + 1 < 30 →
      fpsTick now g = ({ g with frameCount := g.frameCount + 1 }, none))
    ∧ (g.frameCount + 1 = 30 →
      fpsTick now g =
        ({ g with
            frameCount := 0
            fpsTimer := now
            currentFPS := (30 * 1000 : ℚ) / (((now + U32 - g.fpsTimer) % U32 : Nat) : ℚ) },
         some ((30 * 1000 : ℚ) / (((now + U32 - g.fpsTimer) % U32 : Nat) : ℚ))))
    ∧ ((fpsTick now g).1.frameCount < 30)
    ∧ (∀ (env : LoopEnv) (g' : Globals) (d : DecodedFrame),
        env.fb = true → env.decoded = some d → g'.frameCount + 1 < 30 →
        (loop env g').1.frameCount = g'.frameCount + 1
        ∧ (loop env g').1.fpsTimer = g'.fpsTimer
        ∧ (loop env g').2.fpsEmitted = none)
    ∧ (∀ (env : LoopEnv) (g' : Globals),
        env.fb = false ∨ env.decoded = none →
        (loop env g').1.frameCount = g'.frameCount
        ∧ (loop env g').2.fpsEmitted = none) := by
  refine ⟨?_, ?_, ?_, ?_, ?_⟩
  · intro hlt
    simp only [fpsTick]
    rw [if_neg (by omega)]
  · intro heq
    simp only [fpsTick]
    rw [if_pos (by omega)]
    simp [heq]
  · simp only [fpsTick]
    split_ifs <;> simp
    omega
  · intro env g' d hfb hdec hlt
    obtain ⟨_, hfc, hft, _⟩ := loopCapture_preserves env.capEnv g'
    unfold loop
    simp only [hfb, if_true, hdec]
    simp only [fpsTick, hfc]
    rw [if_neg (by omega)]
    exact ⟨by simp, by simpa using hft, rfl⟩
  · intro env g' hor
    obtain ⟨_, hfc, _, _⟩ := loopCapture_preserves env.capEnv g'
    unfold loop
    rcases hor with hfb | hdec
    · simp [hfb, hfc]
    · cases hfb : env.fb <;> simp [hfb, hdec, hfc]

/-- C6 witness: with 29 frames already counted in a window that started at
time 0, the 30th decoded frame at 2000 ms emits one sample
`30*1000/2000 = 15` fps and resets the counter and the window start. -/
theorem fpsTick_window_witness :
    fpsTick 2000 gFps =
      ({ gFps with
          frameCount := 0
          fpsTimer := 2000
          currentFPS := (30 * 1000 : ℚ) / (((2000 + U32 - gFps.fpsTimer) % U32 : Nat) : ℚ) },
       some ((30 * 1000 : ℚ) / (((2000 + U32 - gFps.fpsTimer) % U32 : Nat) : ℚ)))
    ∧ (fpsTick 2000 gFps).1.frameCount < 30 := by
  have h := fpsTick_window 2000 gFps (by decide)
  exact ⟨h.2.1 (by decide), h.2.2.1⟩

/-- C7 counterexample. On the write-failure path (storage available, frame
acquired, `SD.open` fails: the `if (file)` block at lines 100-120 is skipped
whole), `capturePhoto` draws no error banner and logs nothing — its only
display output is the "CAPTURING..." box drawn before the attempt — so the
failure is not surfaced to the user, contrary to the claim. -/
theorem capturePhoto_write_failure_cex :
    ((capturePhoto ⟨true, true, false⟩ gLive).t.ui.any isErrorEvent = false)
    ∧ ((capturePhoto ⟨true, true, false⟩ gLive).t.ui = [UIEvent.capturingBanner]) := by
  decide

/-- C7 amended. When the still-capture file write fails after a frame was
acquired, the restore of the live-view sensor profile still executes (and
`capturePhoto` still returns `true`), but the failure is not surfaced: no
error banner or success banner is drawn and nothing is logged — the UI trace
is exactly the "CAPTURING..." box. -/
theorem capturePhoto_write_failure_amended (e : CapEnv) (g : Globals)
    (hsd : g.sdCardAvailable = true) (hfb : e.frameAvailable = true)
    (hfile : e.fileOpenOk = false) :
    ((capturePhoto e g).t.ui = [UIEvent.capturingBanner])
    ∧ ((capturePhoto e g).t.ui.any isErrorEvent = false)
    ∧ (e.sensorPresent = true → (capturePhoto e g).g.profile = liveViewRestoredProfile)
    ∧ ((capturePhoto e g).ret = true) := by
  cases hs : e.sensorPresent <;>
    (unfold capturePhoto; rw [hsd, hfb, hfile, hs]; simp [isErrorEvent])

/-- C7 witness: concrete write-failure run from the startup state — the UI
trace is only the "CAPTURING..." box and the profile is restored. -/
theorem capturePhoto_write_failure_witness :
    ((capturePhoto ⟨true, true, false⟩ { gLive with photoCount := 5 }).t.ui =
        [UIEvent.capturingBanner])
    ∧ ((capturePhoto ⟨true, true, false⟩ { gLive with photoCount := 5 }).g.profile =
        liveViewRestoredProfile) := by
  have h := capturePhoto_write_failure_amended ⟨true, true, false⟩
    { gLive with photoCount := 5 } rfl rfl rfl
  exact ⟨h.1, h.2.2.1 rfl⟩

/-- C9. Centering: for a decoded frame of dimensions (w, h) with w ≤ W and
h ≤ H, the integer origin computed at lines 318-319 equals the floored
center ⌊(W−w)/2⌋, ⌊(H−h)/2⌋; on the buffered path the single `pushImage`
presents the frame with its top-left corner at exactly that origin, and on
the per-tile fallback path each MCU (cx, cy) is pushed at
(cx·MCUWidth + ⌊(W−w)/2⌋, cy·MCUHeight + ⌊(H−h)/2⌋), so the frame's
top-left tile (0,0) sits at the same origin. -/
theorem loop_centering (env : LoopEnv) (g : Globals) (d : DecodedFrame)
    (hfb : env.fb = true) (hdec : env.decoded = some d)
    (hw : d.width ≤ env.W) (hh : d.height ≤ env.H) :
    ((env.W - d.width) / 2 = ⌊((env.W : ℚ) - (d.width : ℚ)) / 2⌋₊)
    ∧ ((env.H - d.height) / 2 = ⌊((env.H : ℚ) - (d.height : ℚ)) / 2⌋₊)
    ∧ (g.bufferReady = true →
        (loop env g).2.pushes =
          [⟨(env.W - d.width) / 2, (env.H - d.height) / 2, d.width, d.height⟩])
    ∧ (g.bufferReady = false →
        (loop env g).2.pushes =
          d.tiles.map (fun t =>
            ⟨t.mcuX * t.mcuW + (env.W - d.width) / 2,
             t.mcuY * t.mcuH + (env.H - d.height) / 2, t.mcuW, t.mcuH⟩)) := by
  have hfloor : ∀ (a b : Nat), b ≤ a → (a - b) / 2 = ⌊((a : ℚ) - (b : ℚ)) / 2⌋₊ := by
    intro a b hba
    rw [← Nat.cast_sub hba, show ((2 : ℚ)) = ((2 : ℕ) : ℚ) by norm_num,
      Nat.floor_div_nat, Nat.floor_natCast]
  have hbr := (loopCapture_preserves env.capEnv g).1
  refine ⟨hfloor _ _ hw, hfloor _ _ hh, ?_, ?_⟩
  · intro hb
    unfold loop
    simp only [hfb, if_true, hdec]
    unfold loopRender
    rw [hbr, hb]
    simp
  · intro hb
    unfold loop
    simp only [hfb, if_true, hdec]
    unfold loopRender
    rw [hbr, hb]
    simp

/-- C9 witness: a full-size 320×240 frame on the 320×240 display is pushed
once at origin (0, 0) on the buffered path. -/
theorem loop_centering_witness :
    (loop envLive gLive).2.pushes = [⟨(320 - 320) / 2, (240 - 240) / 2, 320, 240⟩] := by
  have h := loop_centering envLive gLive dQVGA rfl rfl (by decide) (by decide)
  exact h.2.2.1 rfl

end ESPCam
